import Mathlib

/-!
Shallow embedding of `carlosb::object_pool` (`object_pool.hpp`).

Modelling conventions:
* A pointer `m_pool + i` into the arena is modelled as the index `i`;
  the C++ `nullptr` is `none`, so a `_Tp*` is an `Option Nat`.
* The arena storage pointed to by `m_pool` is a map `Nat → Option T`:
  `some v` means placement-new has constructed an object of value `v` at
  that slot and its destructor has not run; `none` is raw storage.
* Freshly allocated storage is uninitialized, hence `fun i => none`.
  The `memcpy`-based `reallocate` copies the first `m_size` slots.
* `size_type` is `std::size_t`; where the code subtracts `size_type`
  values (`in_use`), the model subtracts modulo `2 ^ 64`.
* The mutex, condition variable and `acquire_wait` are concurrency
  features outside this sequential model; every operation below models
  the body of its critical section, executed atomically.
-/

/-- Wrapping subtraction of `std::size_t` (64-bit unsigned) values. -/
def usub64 (a b : Nat) : Nat := (((a : Int) - (b : Int)).emod (2 ^ 64)).toNat

/-- State of `object_pool<T>::impl`: the arena contents reachable from
`m_pool`, the free stack `m_free` (head = `top()`), and the `m_size` /
`m_capacity` bookkeeping. -/
structure Impl (T : Type) where
  m_pool : Nat → Option T
  m_free : List (Option Nat)
  m_size : Nat
  m_capacity : Nat

/-- `impl(const _Allocator&)`: `m_size = 0`, `m_capacity = 4`, arena
allocated but unconstructed. -/
def Impl.mkEmpty {T : Type} : Impl T :=
  { m_pool := fun _ => none
    m_free := []
    m_size := 0
    m_capacity := 4 }

/-- `impl(count, value)`: `count` copies of `value` constructed at slots
`0, …, count-1`, each pushed onto `m_free` in increasing order (so the
stack top is slot `count-1`), `m_size = m_capacity = count`. -/
def Impl.mkFill {T : Type} (count : Nat) (value : T) : Impl T :=
  { m_pool := fun i => if i < count then some value else none
    m_free := ((List.range count).map (fun i => some i)).reverse
    m_size := count
    m_capacity := count }

/-- `impl(count)`: like `impl(count, value)` with default-constructed
elements. -/
def Impl.mkDefault {T : Type} [Inhabited T] (count : Nat) : Impl T :=
  { m_pool := fun i => if i < count then some default else none
    m_free := ((List.range count).map (fun i => some i)).reverse
    m_size := count
    m_capacity := count }

/-- `size()`: number of free elements, `m_free.size()`. -/
def Impl.size {T : Type} (s : Impl T) : Nat := s.m_free.length

/-- `managed_count()`: returns `m_size`. -/
def Impl.managed_count {T : Type} (s : Impl T) : Nat := s.m_size

/-- `capacity()`: returns `m_capacity`. -/
def Impl.capacity {T : Type} (s : Impl T) : Nat := s.m_capacity

/-- `in_use()`: `(managed_count() - size()) > 0` with `size_type`
(unsigned, wrapping) subtraction. -/
def Impl.in_use {T : Type} (s : Impl T) : Bool :=
  decide (0 < usub64 s.managed_count s.size)

/-- `reserve(new_cap)` as implemented: unconditionally deallocates the
old storage, allocates fresh (unconstructed) storage and sets
`m_capacity = new_cap`; `m_size` and `m_free` are not touched. -/
def Impl.reserve {T : Type} (s : Impl T) (new_cap : Nat) : Impl T :=
  { s with m_pool := fun _ => none, m_capacity := new_cap }

/-- `reallocate(count)`: allocates fresh storage, `memcpy`s the first
`m_size` slots of the old arena into it, frees the old storage and sets
`m_capacity = count`. Slots at and beyond `m_size` of the new storage
are raw. -/
def Impl.reallocate {T : Type} (s : Impl T) (count : Nat) : Impl T :=
  { s with
      m_pool := fun i => if i < s.m_size then s.m_pool i else none
      m_capacity := count }

/-- `push(value)` (the copy and move overloads coincide in this model,
as does `emplace` with the constructed value): if `m_size == m_capacity`
then `reallocate(m_capacity * 2)`; placement-new `value` at slot
`m_size`; push that slot on `m_free`; `++m_size`. -/
def Impl.push {T : Type} (s : Impl T) (value : T) : Impl T :=
  let s1 := if s.m_size = s.m_capacity then s.reallocate (s.m_capacity * 2) else s
  { s1 with
      m_pool := fun i => if i = s1.m_size then some value else s1.m_pool i
      m_free := some s1.m_size :: s1.m_free
      m_size := s1.m_size + 1 }

/-- `emplace(args...)`: same body as `push`, with the object constructed
from `args` in place. -/
def Impl.emplace {T : Type} (s : Impl T) (value : T) : Impl T :=
  let s1 := if s.m_size = s.m_capacity then s.reallocate (s.m_capacity * 2) else s
  { s1 with
      m_pool := fun i => if i = s1.m_size then some value else s1.m_pool i
      m_free := some s1.m_size :: s1.m_free
      m_size := s1.m_size + 1 }

/-- The loop `for (i = lo; i < hi; ++i) ::new(m_pool + i) _Tp(v);`. -/
def constructRange {T : Type} (arena : Nat → Option T) (lo hi : Nat) (v : T) :
    Nat → Option T :=
  fun i => if lo ≤ i ∧ i < hi then some v else arena i

/-- The loop `for (i = lo; i < hi; ++i) (m_pool + i)->~_Tp();`.
For `lo ≥ hi` the loop body never runs and the arena is unchanged. -/
def destroyRange {T : Type} (arena : Nat → Option T) (lo hi : Nat) :
    Nat → Option T :=
  fun i => if lo ≤ i ∧ i < hi then none else arena i

/-- `resize(count, value)`: if `count > m_size`, reallocate when
`count > m_capacity` and construct copies of `value` on slots
`[m_size, count)`; otherwise run the destruction loop
`for (i = m_size; i < count; ++i) (m_pool + i)->~_Tp();` (whose range is
empty in that branch); finally `m_size = count`. The free stack is never
touched. -/
def Impl.resizeFill {T : Type} (s : Impl T) (count : Nat) (value : T) : Impl T :=
  if count > s.m_size then
    let s1 := if count > s.m_capacity then s.reallocate count else s
    { s1 with m_pool := constructRange s1.m_pool s1.m_size count value, m_size := count }
  else
    { s with m_pool := destroyRange s.m_pool s.m_size count, m_size := count }

/-- `resize(count)`: same as `resize(count, value)` with
default-constructed elements. -/
def Impl.resize {T : Type} [Inhabited T] (s : Impl T) (count : Nat) : Impl T :=
  s.resizeFill count default

/-- `return_object(_Tp* obj)`: pushes `obj` onto `m_free`. -/
def Impl.return_object {T : Type} (s : Impl T) (obj : Option Nat) : Impl T :=
  { s with m_free := obj :: s.m_free }

/-- State of an `acquired_object` handle: the raw pointer `m_obj`
(`none` = null/indeterminate), whether the `shared_ptr` `m_pool` holds a
reference (`true` = non-null), and the flag `m_is_initialized`. -/
structure AcquiredObject where
  m_obj : Option Nat
  m_pool : Bool
  m_is_initialized : Bool
deriving DecidableEq

/-- `acquired_object(none_t)` (also the default and `nullptr_t`
constructors): `m_is_initialized = false`, `m_pool` default-null. -/
def AcquiredObject.mkNone : AcquiredObject :=
  { m_obj := none, m_pool := false, m_is_initialized := false }

/-- `acquire()`: if `m_free` is empty, return `acquired_object(none)`;
otherwise build `acquired_object(m_free.top(), shared_from_this())`, pop
the stack and return the handle. A total function: no error is signalled
in either case. -/
def Impl.acquire {T : Type} (s : Impl T) : AcquiredObject × Impl T :=
  match s.m_free with
  | [] => (AcquiredObject.mkNone, s)
  | top :: rest =>
      ({ m_obj := top, m_pool := true, m_is_initialized := true },
       { s with m_free := rest })

/-- `deleter::operator()(_Tp* ptr)`: if the weak reference to the pool
locks, call `return_object(ptr)`; otherwise do nothing. -/
def runDeleter {T : Type} (poolRef : Bool) (ptr : Option Nat) (s : Impl T) : Impl T :=
  if poolRef then s.return_object ptr else s

/-- `operator bool()` of `acquired_object`: returns `m_is_initialized`. -/
def AcquiredObject.toBool (h : AcquiredObject) : Bool := h.m_is_initialized

/-- `acquired_object(acquired_object&& other)`: the new handle copies
`m_obj`, moves `m_pool` and copies `m_is_initialized`; afterwards
`other.m_obj = nullptr` and `other.m_pool` is moved-from (null), but
`other.m_is_initialized` is left unchanged. Returns
(new handle, `other` afterwards). -/
def AcquiredObject.moveConstruct (other : AcquiredObject) :
    AcquiredObject × AcquiredObject :=
  ({ m_obj := other.m_obj, m_pool := other.m_pool,
     m_is_initialized := other.m_is_initialized },
   { m_obj := none, m_pool := false,
     m_is_initialized := other.m_is_initialized })

/-- `operator=(acquired_object&& other)` on `self`: first
`deleter_type{m_pool}(m_obj)` returns the current object to the pool,
then `self` takes `other`'s pointer and pool, and
`other.m_is_initialized = false`, `other.m_obj = nullptr`, `other.m_pool`
moved-from. Returns (`self` afterwards, `other` afterwards, pool state
afterwards). -/
def AcquiredObject.moveAssign {T : Type} (self other : AcquiredObject)
    (s : Impl T) : AcquiredObject × AcquiredObject × Impl T :=
  ({ m_obj := other.m_obj, m_pool := other.m_pool,
     m_is_initialized := other.m_is_initialized },
   { m_obj := none, m_pool := false, m_is_initialized := false },
   runDeleter self.m_pool self.m_obj s)

/-- The condition checked by `assert(m_is_initialized)` in
`~acquired_object()`. -/
def AcquiredObject.destructorAssert (h : AcquiredObject) : Bool :=
  h.m_is_initialized

/-- Effect of `~acquired_object()` on the pool:
`deleter_type{m_pool}(m_obj)`. -/
def AcquiredObject.destroy {T : Type} (h : AcquiredObject) (s : Impl T) : Impl T :=
  runDeleter h.m_pool h.m_obj s

/-- Result of `operator*()` on a handle: the thrown
`std::logic_error` for an uninitialized handle, the referenced value,
or undefined behavior (dereferencing null or a non-live slot). -/
inductive DerefResult (T : Type) where
  | throwNotInitialized
  | value (v : T)
  | undefined
deriving DecidableEq

/-- `operator*()`: `if (!m_is_initialized) throw std::logic_error(...)`,
`else return *m_obj`. -/
def AcquiredObject.deref {T : Type} (h : AcquiredObject) (s : Impl T) :
    DerefResult T :=
  if h.m_is_initialized then
    match h.m_obj with
    | some a =>
        match s.m_pool a with
        | some v => DerefResult.value v
        | none => DerefResult.undefined
    | none => DerefResult.undefined
  else DerefResult.throwNotInitialized

/-- Client-visible operations used to drive the pool in sequences:
`acquire()`, destruction of the `k`-th outstanding handle, `push`,
`emplace` and `resize`. -/
inductive Op (T : Type) where
  | acquireOp
  | returnOp (k : Nat)
  | pushOp (v : T)
  | emplaceOp (v : T)
  | resizeOp (n : Nat)

/-- Whether an operation is a `resize`. -/
def Op.isResizeOp {T : Type} : Op T → Bool
  | .resizeOp _ => true
  | _ => false

/-- A pool together with the holding handles currently on loan. -/
structure Sys (T : Type) where
  impl : Impl T
  outstanding : List AcquiredObject

/-- Number of slots currently on loan: the live holding handles. -/
def Sys.loans {T : Type} (sys : Sys T) : Nat := sys.outstanding.length

/-- One client operation: `acquire` records the handle as on loan when
it is holding; `returnOp k` destroys the `k`-th outstanding handle
(scope exit), which runs `~acquired_object()`; `push`, `emplace` and
`resize` act on the pool alone. -/
def Sys.step {T : Type} [Inhabited T] (sys : Sys T) : Op T → Sys T
  | .acquireOp =>
      let r := sys.impl.acquire
      { impl := r.2
        outstanding :=
          if r.1.m_is_initialized then r.1 :: sys.outstanding else sys.outstanding }
  | .returnOp k =>
      match sys.outstanding[k]? with
      | some h =>
          { impl := h.destroy sys.impl, outstanding := sys.outstanding.eraseIdx k }
      | none => sys
  | .pushOp v => { sys with impl := sys.impl.push v }
  | .emplaceOp v => { sys with impl := sys.impl.emplace v }
  | .resizeOp n => { sys with impl := sys.impl.resize n }

/-- Run a sequence of client operations. -/
def Sys.run {T : Type} [Inhabited T] (sys : Sys T) (ops : List (Op T)) : Sys T :=
  ops.foldl Sys.step sys

/-- The conservation invariant together with the well-formedness of the
outstanding handles (every handle issued by `acquire` keeps a live
reference to the pool). -/
def GoodSys {T : Type} (sys : Sys T) : Prop :=
  sys.impl.managed_count = sys.impl.size + sys.loans ∧
  ∀ h ∈ sys.outstanding, h.m_pool = true

/-- Every operation other than `resize` preserves conservation. -/
theorem step_preserves_goodSys {T : Type} [Inhabited T] (sys : Sys T) (op : Op T)
    (hgood : GoodSys sys) (hop : op.isResizeOp = false) : GoodSys (sys.step op) := by
  obtain ⟨hcons, hpool⟩ := hgood
  simp only [GoodSys, Impl.managed_count, Impl.size, Sys.loans] at hcons ⊢
  cases op with
  | acquireOp =>
      match hfree : sys.impl.m_free with
      | [] =>
          have hstep : sys.step Op.acquireOp = sys := by
            simp [Sys.step, Impl.acquire, hfree, AcquiredObject.mkNone]
          rw [hstep]
          exact ⟨hcons, hpool⟩
      | top :: rest =>
          have hstep : sys.step Op.acquireOp =
              { impl := { sys.impl with m_free := rest },
                outstanding :=
                  { m_obj := top, m_pool := true, m_is_initialized := true } ::
                    sys.outstanding } := by
            simp [Sys.step, Impl.acquire, hfree]
          rw [hstep]
          refine ⟨?_, ?_⟩
          · rw [hfree] at hcons
            simp only [List.length_cons] at hcons ⊢
            omega
          · intro h hmem
            rcases List.mem_cons.mp hmem with rfl | hmem
            · rfl
            · exact hpool h hmem
  | returnOp k =>
      match hk : sys.outstanding[k]? with
      | none =>
          have hstep : sys.step (Op.returnOp k) = sys := by simp [Sys.step, hk]
          rw [hstep]
          exact ⟨hcons, hpool⟩
      | some h =>
          have hmem : h ∈ sys.outstanding := List.getElem?_mem hk
          have hklt : k < sys.outstanding.length :=
            (List.getElem?_eq_some.mp hk).choose
          have hstep : sys.step (Op.returnOp k) =
              { impl := { sys.impl with m_free := h.m_obj :: sys.impl.m_free },
                outstanding := sys.outstanding.eraseIdx k } := by
            simp [Sys.step, hk, AcquiredObject.destroy, runDeleter, hpool h hmem,
              Impl.return_object]
          rw [hstep]
          refine ⟨?_, ?_⟩
          · simp only [List.length_cons, List.length_eraseIdx_of_lt hklt]
            omega
          · intro h2 hmem2
            exact hpool h2 ((sys.outstanding.eraseIdx_sublist k).subset hmem2)
  | pushOp v =>
      refine ⟨?_, by simpa [Sys.step] using hpool⟩
      show (sys.impl.push v).m_size =
        (sys.impl.push v).m_free.length + sys.outstanding.length
      simp only [Impl.push]
      split <;> simp only [Impl.reallocate, List.length_cons] <;> omega
  | emplaceOp v =>
      refine ⟨?_, by simpa [Sys.step] using hpool⟩
      show (sys.impl.emplace v).m_size =
        (sys.impl.emplace v).m_free.length + sys.outstanding.length
      simp only [Impl.emplace]
      split <;> simp only [Impl.reallocate, List.length_cons] <;> omega
  | resizeOp n => simp [Op.isResizeOp] at hop

/-- Conservation for whole sequences of acquire/return/push/emplace
operations. -/
theorem run_preserves_goodSys {T : Type} [Inhabited T] (sys : Sys T)
    (ops : List (Op T)) (hgood : GoodSys sys)
    (hops : ∀ op ∈ ops, op.isResizeOp = false) : GoodSys (Sys.run sys ops) := by
  induction ops generalizing sys with
  | nil => simpa [Sys.run] using hgood
  | cons op ops ih =>
      have h1 : GoodSys (sys.step op) :=
        step_preserves_goodSys sys op hgood (hops op (List.mem_cons_self op ops))
      have h2 : ∀ op2 ∈ ops, Op.isResizeOp op2 = false :=
        fun op2 hmem => hops op2 (List.mem_cons_of_mem op hmem)
      simpa [Sys.run] using ih (sys.step op) h1 h2

/-- Claim C1 (refuted on the code, evaluation at the failing input):
starting from a default-constructed pool, the single-operation sequence
`resize(100)` ends with `managed_count() = 100` while `size() = 0` and
no slot is on loan, so `managed_count() = size() + loans` fails after a
resize: the resize implementation never pushes the newly constructed
objects onto the free stack. -/
theorem C1_resize_breaks_conservation :
    (Sys.run { impl := (Impl.mkEmpty : Impl Nat), outstanding := [] }
      [Op.resizeOp 100]).impl.managed_count = 100 ∧
    (Sys.run { impl := (Impl.mkEmpty : Impl Nat), outstanding := [] }
      [Op.resizeOp 100]).impl.size = 0 ∧
    (Sys.run { impl := (Impl.mkEmpty : Impl Nat), outstanding := [] }
      [Op.resizeOp 100]).loans = 0 := by
  refine ⟨rfl, rfl, rfl⟩

/-- Claim C2 (refuted on the code, evaluation at the failing input): on
a pool of 100 managed objects, `reserve(10)` sets `capacity() = 10`
while `managed_count()` stays 100, so `capacity() ≥ managed_count()` is
not preserved by `reserve`. -/
theorem C2_reserve_capacity_violation :
    ((Impl.mkFill 100 (0 : Nat)).reserve 10).capacity <
      ((Impl.mkFill 100 (0 : Nat)).reserve 10).managed_count := by
  decide

/-- Claim C3: `acquire()` on an empty free list returns the `empty`
handle `acquired_object(none)` and leaves the pool unchanged (the
operation is a total function — no exception or error is produced);
on a non-empty free list it pops exactly the top address, returns a
holding handle bound to that slot, and `size()` decreases by one. -/
theorem C3_acquire_nonblocking {T : Type} (s : Impl T) :
    (s.m_free = [] → s.acquire = (AcquiredObject.mkNone, s)) ∧
    (∀ top rest, s.m_free = top :: rest →
      (s.acquire).1 = { m_obj := top, m_pool := true, m_is_initialized := true } ∧
      (s.acquire).2 = { s with m_free := rest } ∧
      (s.acquire).2.size + 1 = s.size) := by
  constructor
  · intro hfree
    simp [Impl.acquire, hfree]
  · intro top rest hfree
    refine ⟨?_, ?_, ?_⟩ <;> simp [Impl.acquire, hfree, Impl.size]

/-- Witness for C3 at concrete pools: the empty pool and a pool of one
element. -/
theorem C3_witness :
    ((Impl.mkEmpty : Impl Nat).m_free = [] ∧
      (Impl.mkEmpty : Impl Nat).acquire = (AcquiredObject.mkNone, Impl.mkEmpty)) ∧
    ((Impl.mkFill 1 (5 : Nat)).m_free = [some 0] ∧
      ((Impl.mkFill 1 (5 : Nat)).acquire).1 =
        { m_obj := some 0, m_pool := true, m_is_initialized := true } ∧
      ((Impl.mkFill 1 (5 : Nat)).acquire).2.size + 1 = (Impl.mkFill 1 (5 : Nat)).size) :=
  ⟨⟨rfl, (C3_acquire_nonblocking Impl.mkEmpty).1 rfl⟩,
   ⟨by decide,
    ((C3_acquire_nonblocking (Impl.mkFill 1 5)).2 (some 0) [] (by decide)).1,
    ((C3_acquire_nonblocking (Impl.mkFill 1 5)).2 (some 0) [] (by decide)).2.2⟩⟩

/-- Claim C4: on a pool with a non-empty free list that is not in use,
acquiring a handle and then destroying it (the destructor returns the
slot through the deleter) restores `size()` to its pre-acquire value and
leaves `in_use()` false. -/
theorem C4_round_trip {T : Type} (s : Impl T) (hne : s.m_free ≠ [])
    (hidle : s.in_use = false) :
    ((s.acquire).1.destroy (s.acquire).2).size = s.size ∧
    ((s.acquire).1.destroy (s.acquire).2).in_use = false := by
  obtain ⟨mp, mf, ms, mc⟩ := s
  cases mf with
  | nil => exact absurd rfl hne
  | cons top rest => exact ⟨rfl, hidle⟩

/-- Witness for C4 at a pool of one element. -/
theorem C4_witness :
    (Impl.mkFill 1 (5 : Nat)).m_free ≠ [] ∧
    (Impl.mkFill 1 (5 : Nat)).in_use = false ∧
    (((Impl.mkFill 1 (5 : Nat)).acquire).1.destroy
        ((Impl.mkFill 1 (5 : Nat)).acquire).2).size = (Impl.mkFill 1 (5 : Nat)).size ∧
    (((Impl.mkFill 1 (5 : Nat)).acquire).1.destroy
        ((Impl.mkFill 1 (5 : Nat)).acquire).2).in_use = false := by
  refine ⟨by decide, by decide, ?_⟩
  exact C4_round_trip (Impl.mkFill 1 5) (by decide) (by decide)

/-- Claim C5: pushing into a pool whose `managed_count()` equals its
`capacity()` doubles the capacity, appends the new object at slot
`m_size` as the new top of the free stack, increments `managed_count()`,
and the `memcpy`-based reallocation preserves the values of all
previously managed slots (in particular every previously free slot). -/
theorem C5_growth {T : Type} (s : Impl T) (v : T)
    (hfull : s.m_size = s.m_capacity) :
    (s.push v).capacity = 2 * s.capacity ∧
    (s.push v).managed_count = s.managed_count + 1 ∧
    (s.push v).m_free = some s.m_size :: s.m_free ∧
    (s.push v).m_pool s.m_size = some v ∧
    ∀ i, i < s.m_size → (s.push v).m_pool i = s.m_pool i := by
  refine ⟨?_, ?_, ?_, ?_, ?_⟩
  · simp only [Impl.push, if_pos hfull, Impl.reallocate, Impl.capacity]
    exact Nat.mul_comm s.m_capacity 2
  · simp only [Impl.push, if_pos hfull, Impl.reallocate, Impl.managed_count]
  · simp only [Impl.push, if_pos hfull, Impl.reallocate]
  · simp only [Impl.push, if_pos hfull, Impl.reallocate]
    simp
  · intro i hi
    have h1 : ¬ (i = s.m_size) := Nat.ne_of_lt hi
    simp only [Impl.push, if_pos hfull, Impl.reallocate]
    simp [h1, hi]

/-- Witness for C5 at a full pool of four sevens. -/
theorem C5_witness :
    (Impl.mkFill 4 (7 : Nat)).m_size = (Impl.mkFill 4 (7 : Nat)).m_capacity ∧
    ((Impl.mkFill 4 (7 : Nat)).push 9).capacity =
      2 * (Impl.mkFill 4 (7 : Nat)).capacity ∧
    ((Impl.mkFill 4 (7 : Nat)).push 9).managed_count =
      (Impl.mkFill 4 (7 : Nat)).managed_count + 1 ∧
    ((Impl.mkFill 4 (7 : Nat)).push 9).m_free =
      some (Impl.mkFill 4 (7 : Nat)).m_size :: (Impl.mkFill 4 (7 : Nat)).m_free ∧
    ((Impl.mkFill 4 (7 : Nat)).push 9).m_pool (Impl.mkFill 4 (7 : Nat)).m_size =
      some 9 ∧
    ∀ i, i < (Impl.mkFill 4 (7 : Nat)).m_size →
      ((Impl.mkFill 4 (7 : Nat)).push 9).m_pool i = (Impl.mkFill 4 (7 : Nat)).m_pool i :=
  ⟨by decide, C5_growth (Impl.mkFill 4 7) 9 (by decide)⟩

/-- Claim C6 (refuted on the code, evaluation at the failing input): on
a pool of four sevens (capacity 4), `reserve(2)` is not a no-op even
though `2 ≤ capacity()`: it changes `capacity()` to 2 and the fresh
storage loses the stored object values (slot 0 held 7 and is raw
afterwards); `managed_count()` is indeed unchanged. -/
theorem C6_reserve_not_noop :
    ((Impl.mkFill 4 (7 : Nat)).reserve 2).managed_count = 4 ∧
    ((Impl.mkFill 4 (7 : Nat)).reserve 2).capacity = 2 ∧
    (Impl.mkFill 4 (7 : Nat)).m_pool 0 = some 7 ∧
    ((Impl.mkFill 4 (7 : Nat)).reserve 2).m_pool 0 = none := by
  decide

/-- Claim C7 (refuted on the code, evaluation at the failing input): on
a pool of three sevens, `resize(1)` sets `managed_count() = 1` but
destroys nothing: its destruction loop iterates over the empty range
`[m_size, count)`, so the excess objects at slots 1 and 2 are still
constructed afterwards. -/
theorem C7_resize_skips_destruction :
    ((Impl.mkFill 3 (7 : Nat)).resize 1).managed_count = 1 ∧
    ((Impl.mkFill 3 (7 : Nat)).resize 1).m_pool 1 = some 7 ∧
    ((Impl.mkFill 3 (7 : Nat)).resize 1).m_pool 2 = some 7 := by
  decide

/-- Counterexample to claim C8: move-constructing from the holding
handle acquired out of a one-element pool leaves the source handle with
its boolean/is-holding test still true, not false as the claim states
(the move constructor never clears `m_is_initialized`). -/
theorem C8_counterexample :
    ¬ ((((Impl.mkFill 1 (5 : Nat)).acquire).1.moveConstruct).2.toBool = false) := by
  decide

/-- Claim C8 as amended: after a move assignment the source handle is
empty (boolean test false, null pointer, no pool reference); after a
move construction the source no longer owns its slot (null pointer, no
pool reference) but its boolean/is-holding test keeps its previous
value, so a holding source still tests as holding. -/
theorem C8_moved_from_handles {T : Type} (s : Impl T)
    (self other h : AcquiredObject) :
    (self.moveAssign other s).2.1.toBool = false ∧
    (self.moveAssign other s).2.1.m_obj = none ∧
    (self.moveAssign other s).2.1.m_pool = false ∧
    (h.moveConstruct).2.m_obj = none ∧
    (h.moveConstruct).2.m_pool = false ∧
    (h.moveConstruct).2.toBool = h.toBool :=
  ⟨rfl, rfl, rfl, rfl, rfl, rfl⟩

/-- Claim C9: dereferencing a handle whose `m_is_initialized` flag is
false throws the `NotInitialized` logic error; dereferencing a holding
handle bound to a live slot returns that slot's value without error. -/
theorem C9_deref {T : Type} (s : Impl T) (h : AcquiredObject) :
    (h.m_is_initialized = false →
      h.deref s = DerefResult.throwNotInitialized) ∧
    (∀ a v, h.m_is_initialized = true → h.m_obj = some a →
      s.m_pool a = some v → h.deref s = DerefResult.value v) := by
  constructor
  · intro hinit
    simp [AcquiredObject.deref, hinit]
  · intro a v hinit hobj hslot
    simp [AcquiredObject.deref, hinit, hobj, hslot]

/-- Witness for C9: the empty handle throws; the handle acquired from a
one-element pool of fives dereferences to 5. -/
theorem C9_witness :
    (AcquiredObject.mkNone.m_is_initialized = false ∧
      AcquiredObject.mkNone.deref (Impl.mkEmpty : Impl Nat) =
        DerefResult.throwNotInitialized) ∧
    (((Impl.mkFill 1 (5 : Nat)).acquire).1.m_is_initialized = true ∧
      ((Impl.mkFill 1 (5 : Nat)).acquire).1.m_obj = some 0 ∧
      ((Impl.mkFill 1 (5 : Nat)).acquire).2.m_pool 0 = some 5 ∧
      ((Impl.mkFill 1 (5 : Nat)).acquire).1.deref
          ((Impl.mkFill 1 (5 : Nat)).acquire).2 = DerefResult.value 5) :=
  ⟨⟨rfl, (C9_deref Impl.mkEmpty AcquiredObject.mkNone).1 rfl⟩,
   ⟨by decide, by decide, by decide,
    (C9_deref ((Impl.mkFill 1 (5 : Nat)).acquire).2
        ((Impl.mkFill 1 (5 : Nat)).acquire).1).2 0 5
      (by decide) (by decide) (by decide)⟩⟩

/-- Claim C10 (refuted on the code, evaluation at the failing input):
the empty handle returned by `acquire()` on a pool with no free objects
has `m_is_initialized = false`, so the destructor's
`assert(m_is_initialized)` condition is false for it and the assertion
is violated when that handle is destroyed. -/
theorem C10_empty_handle_fails_assert :
    (((Impl.mkEmpty : Impl Nat).acquire).1).destructorAssert = false := by
  decide
